import Mathlib

/-!
# Verification of the `cpp-app-template` logging core

A shallow embedding of the repository's logging core:

* `src/lib/logger/include/logger/ILogger.hpp` — the abstract `ILogger`
  interface (copy/move deleted, a single pure-virtual `log`);
* `src/lib/logger/src/ConsoleLogger.cpp` — the private `ConsoleLogger`
  implementation (`std::cout << message << '\n';`) and the factory
  `createDefaultLogger` (`std::make_unique<ConsoleLogger>()`);
* `src/lib/logger/include/logger/LoggerFactory.hpp` — the factory's
  declared contract (never `nullptr`, may throw on creation failure);
* `src/app/sampleApp/src/main.cpp` — the composition root `main`.

Messages (`std::string_view`) and the standard-output stream are modelled
as byte sequences (`List Nat`, each byte below 256 in practice; nothing in
the code inspects the bytes, so no bound is imposed).  Fallible C++
operations are modelled in `Except String`; the nullable `std::unique_ptr`
return of the factory is modelled as `Option`.  Heap allocation performed
by `std::make_unique` is modelled as an explicit allocator state handing
out fresh addresses.
-/

namespace CppAppTemplate

/-- A single byte, as a natural number (the code never inspects byte
values, so no `< 256` bound is needed anywhere). -/
abbrev Byte := Nat

/-- A log message: the byte sequence viewed by the `std::string_view`
parameter of `ILogger::log`. -/
abbrev Msg := List Byte

/-- The content of the process's standard-output stream, as the byte
sequence written so far. -/
abbrev Stdout := List Byte

/-- The byte written by `'\n'` (line feed, 10). -/
def newlineByte : Byte := 10

/-- Bytes of an ASCII string literal, as they appear in the C++ source
(for ASCII text the code points are exactly the UTF-8 bytes). -/
def strToMsg (s : String) : Msg := s.data.map Char.toNat

/-- `ConsoleLogger::log` (src/lib/logger/src/ConsoleLogger.cpp:16):
`std::cout << message << '\n';` — appends the message bytes followed by a
single newline byte to standard output.  `std::ostream` with the default
exception mask never throws, so the call always succeeds; the `Except`
wrapper records that no error is raised. -/
def ConsoleLogger.log (out : Stdout) (message : Msg) : Except String Stdout :=
  .ok (out ++ message ++ [newlineByte])

/-- A constructed `ConsoleLogger` object, identified by the heap address
`std::make_unique` allocated for it.  The C++ class has no data members,
so the address is the instance's only distinguishing feature. -/
structure LoggerInstance where
  addr : Nat
deriving DecidableEq

/-- Allocator state: the next fresh heap address `std::make_unique` will
hand out.  Distinct live allocations always receive distinct addresses. -/
structure AllocState where
  next : Nat
deriving DecidableEq

/-- `createDefaultLogger` (src/lib/logger/src/ConsoleLogger.cpp:21-23):
`return std::make_unique<ConsoleLogger>();`.  The declaration
(LoggerFactory.hpp) documents `std::runtime_error` on creation failure —
modelled by the `Except` layer — and a possibly-null `std::unique_ptr`
return type — modelled by the `Option` layer.  Under normal operating
conditions (the scope of the spec: no resource exhaustion)
`std::make_unique` allocates a fresh object and returns a non-null
owning pointer without throwing. -/
def createDefaultLogger (s : AllocState) :
    Except String (Option LoggerInstance × AllocState) :=
  .ok (some { addr := s.next }, { next := s.next + 1 })

/-- Call `createDefaultLogger` `n` times in sequence, collecting the `n`
returned pointers (as the unit tests' `CreateMultipleLoggerInstances`
and the factory spec's "calling it n times" scenario do). -/
def createLoggers : Nat → AllocState →
    Except String (List (Option LoggerInstance) × AllocState)
  | 0, s => .ok ([], s)
  | n + 1, s => do
      let (p, s') ← createDefaultLogger s
      let (ps, s'') ← createLoggers n s'
      .ok (p :: ps, s'')

/-- Call `ConsoleLogger.log` once per message, in order (the loop the
integration tests run over a message sequence). -/
def logAll (out : Stdout) : List Msg → Except String Stdout
  | [] => .ok out
  | m :: ms => do
      let out' ← ConsoleLogger.log out m
      logAll out' ms

/-- Split a byte stream at newline bytes into segments; a stream with `k`
newline bytes yields `k + 1` segments, the last being the (possibly
empty) unterminated remainder. -/
def splitOnNl : Stdout → List Msg
  | [] => [[]]
  | b :: rest =>
      let r := splitOnNl rest
      if b = newlineByte then [] :: r
      else (b :: r.headD []) :: r.tail

/-- The newline-terminated lines of a byte stream: every segment except
the final unterminated remainder. -/
def linesOf (out : Stdout) : List Msg := (splitOnNl out).dropLast

/-- `EXIT_SUCCESS` from `<cstdlib>`. -/
def EXIT_SUCCESS : Nat := 0

/-- `main` (src/app/sampleApp/src/main.cpp:12-22): construct one logger
via the factory, dereference it for three `log` calls in a fixed order,
return `EXIT_SUCCESS`.  Dereferencing a null pointer would be undefined
behaviour, modelled as an error; the final allocator state witnesses how
many loggers were constructed.  The program reads no command-line
arguments, environment variables, or other input. -/
def mainProgram (s : AllocState) :
    Except String (Nat × Stdout × AllocState) := do
  let (loggerOpt, s') ← createDefaultLogger s
  match loggerOpt with
  | none => .error "dereferenced null logger"
  | some _logger => do
      let out1 ← ConsoleLogger.log [] (strToMsg "Application started")
      let out2 ← ConsoleLogger.log out1 (strToMsg "Hello from cpp-app-template!")
      let out3 ← ConsoleLogger.log out2 (strToMsg "Application finished")
      .ok (EXIT_SUCCESS, out3, s')

/-- The behaviour of a run that any observer outside the process sees:
its exit status and its standard-output content (the allocator state is
internal). -/
def observableOf (r : Except String (Nat × Stdout × AllocState)) :
    Except String (Nat × Stdout) :=
  r.map fun p => (p.1, p.2.1)

/-- The standard-output content `main` produces. -/
def mainOutput : Stdout :=
  strToMsg "Application started" ++ [newlineByte] ++
  strToMsg "Hello from cpp-app-template!" ++ [newlineByte] ++
  strToMsg "Application finished" ++ [newlineByte]

/-- Client-visible operations on the logging library.  `ILogger`
(ILogger.hpp:15-18) deletes its copy constructor, move constructor, copy
assignment and move assignment, and `std::unique_ptr` is move-only with
the pointee fixed, so the public interface offers no operation that
duplicates or relocates an instance: a client can only create a logger
through the factory, call `log` on a live instance, or destroy one. -/
inductive Op where
  | create
  | logMsg (a : Nat) (m : Msg)
  | destroy (a : Nat)

/-- The client-visible state of a process using the library: the
allocator, the addresses of live logger instances, and stdout. -/
structure SysState where
  alloc : AllocState
  live : List Nat
  out : Stdout

/-- One client operation.  `create` runs the factory and keeps the fresh
instance; `logMsg` calls `ConsoleLogger::log` on a live instance (on a
dead address there is no instance to call, so nothing happens); `destroy`
releases an owned instance (the `unique_ptr` destructor). -/
def step (s : SysState) : Op → SysState
  | .create =>
      { s with alloc := { next := s.alloc.next + 1 },
               live := s.alloc.next :: s.live }
  | .logMsg a m =>
      if a ∈ s.live then { s with out := s.out ++ m ++ [newlineByte] } else s
  | .destroy a => { s with live := s.live.erase a }

/-- Run a sequence of client operations from a state. -/
def runOps (s : SysState) (ops : List Op) : SysState := ops.foldl step s

/-- The process's initial state: nothing allocated, nothing written. -/
def initState : SysState := { alloc := { next := 0 }, live := [], out := [] }

/-! ## Helper lemmas -/

/-- Bind on a successful `Except` computation runs the continuation. -/
theorem exceptBind_ok {α β : Type} (a : α) (f : α → Except String β) :
    (Except.ok a >>= f) = f a := rfl

/-- `createDefaultLogger`, iterated `n` times, returns `some` pointers to
the `n` consecutively allocated addresses and advances the allocator by
`n`. -/
theorem createLoggers_eq (n : Nat) (s : AllocState) :
    createLoggers n s =
      .ok ((List.range' s.next n).map fun a => some ⟨a⟩, ⟨s.next + n⟩) := by
  induction n generalizing s with
  | zero => rfl
  | succ n ih =>
      show (createDefaultLogger s >>= _) = _
      rw [show createDefaultLogger s =
            Except.ok (some ⟨s.next⟩, ⟨s.next + 1⟩) from rfl, exceptBind_ok]
      show (createLoggers n ⟨s.next + 1⟩ >>= _) = _
      rw [ih ⟨s.next + 1⟩, exceptBind_ok]
      show Except.ok
          (some (LoggerInstance.mk s.next) ::
             (List.range' (s.next + 1) n).map (fun a => some (LoggerInstance.mk a)),
           AllocState.mk (s.next + 1 + n)) = _
      rw [List.range'_succ, List.map_cons,
        show s.next + 1 + n = s.next + (n + 1) from by omega]

/-- Logging a list of messages in order appends, for each message, its
bytes followed by one newline byte. -/
theorem logAll_eq (ms : List Msg) (out : Stdout) :
    logAll out ms = .ok (out ++ (ms.map (· ++ [newlineByte])).flatten) := by
  induction ms generalizing out with
  | nil => simp [logAll]
  | cons m ms ih =>
      show (ConsoleLogger.log out m >>= _) = _
      rw [show ConsoleLogger.log out m =
            Except.ok (out ++ m ++ [newlineByte]) from rfl, exceptBind_ok]
      rw [ih]
      simp [List.append_assoc]

/-- `splitOnNl` never returns the empty list of segments. -/
theorem splitOnNl_ne_nil (out : Stdout) : splitOnNl out ≠ [] := by
  cases out with
  | nil => simp [splitOnNl]
  | cons b rest =>
      simp only [splitOnNl]
      split <;> simp

/-- Splitting a stream that starts with a newline-free message followed
by a newline peels off that message as the first segment. -/
theorem splitOnNl_msg_append (m : Msg) (hm : newlineByte ∉ m)
    (rest : Stdout) :
    splitOnNl (m ++ newlineByte :: rest) = m :: splitOnNl rest := by
  induction m with
  | nil => simp [splitOnNl]
  | cons b m ih =>
      have hb : ¬b = newlineByte := fun h =>
        hm (h ▸ List.mem_cons_self b m)
      have hm' : newlineByte ∉ m := fun h => hm (List.mem_cons_of_mem b h)
      simp [splitOnNl, hb, ih hm']

/-- Newline-terminated segments of the stream `logAll` writes for
newline-free messages: exactly the messages plus the empty remainder. -/
theorem splitOnNl_flatten (ms : List Msg)
    (h : ∀ m ∈ ms, newlineByte ∉ m) :
    splitOnNl (ms.map (· ++ [newlineByte])).flatten = ms ++ [[]] := by
  induction ms with
  | nil => rfl
  | cons m ms ih =>
      have hm : newlineByte ∉ m := h m (List.mem_cons_self m ms)
      have hms : ∀ x ∈ ms, newlineByte ∉ x := fun x hx =>
        h x (List.mem_cons_of_mem m hx)
      simp only [List.map_cons, List.flatten_cons, List.append_assoc,
        List.singleton_append]
      rw [splitOnNl_msg_append m hm, ih hms]
      rfl

/-- Invariant of client states: every live instance's address was handed
out by the allocator (all factory-produced addresses lie below `next`),
and no address occurs twice among the live handles. -/
def SysInv (s : SysState) : Prop :=
  (∀ a ∈ s.live, a < s.alloc.next) ∧ s.live.Nodup

/-- Every client operation preserves the invariant: `create` hands out a
fresh address, `logMsg` touches only the output stream, `destroy`
removes a handle. -/
theorem sysInv_step (s : SysState) (op : Op) (h : SysInv s) :
    SysInv (step s op) := by
  obtain ⟨hlt, hnd⟩ := h
  cases op with
  | create =>
      refine ⟨?_, ?_⟩
      · intro a ha
        rcases List.mem_cons.mp ha with rfl | ha
        · exact Nat.lt_succ_self _
        · exact Nat.lt_trans (hlt a ha) (Nat.lt_succ_self _)
      · exact List.nodup_cons.mpr
          ⟨fun hmem => Nat.lt_irrefl _ (hlt _ hmem), hnd⟩
  | logMsg a m =>
      by_cases hmem : a ∈ s.live <;> simp only [step, hmem] <;>
        exact ⟨hlt, hnd⟩
  | destroy a =>
      exact ⟨fun b hb => hlt b (List.mem_of_mem_erase hb), hnd.erase a⟩

/-- Running any operation sequence from an invariant state lands in an
invariant state. -/
theorem sysInv_runOps (ops : List Op) :
    ∀ s, SysInv s → SysInv (runOps s ops) := by
  induction ops with
  | nil => intro s h; exact h
  | cons op ops ih => intro s h; exact ih (step s op) (sysInv_step s op h)

/-! ## Claim theorems -/

/-- C1: running the entry point constructs exactly one logger via the
factory (the allocator advances by exactly one) and issues the three log
calls in the fixed order, so standard output is exactly the three lines
"Application started", "Hello from cpp-app-template!", "Application
finished" in this order, each newline-terminated with nothing after the
last terminator, and the process exits with `EXIT_SUCCESS`. -/
theorem main_runs_fixed_script (s : AllocState) :
    mainProgram s = .ok (EXIT_SUCCESS, mainOutput, ⟨s.next + 1⟩) ∧
    splitOnNl mainOutput =
      [strToMsg "Application started",
       strToMsg "Hello from cpp-app-template!",
       strToMsg "Application finished", []] ∧
    EXIT_SUCCESS = 0 :=
  ⟨rfl, by decide, rfl⟩

/-- C2: for every message `m` — empty, multi-line, or containing
control/escape bytes — `log` raises no error and the output it produces
is `m`'s bytes followed by exactly one newline byte appended to the
stream. -/
theorem log_no_error_one_terminator (out m : List Byte) :
    ConsoleLogger.log out m = .ok (out ++ (m ++ [newlineByte])) ∧
    List.count newlineByte (m ++ [newlineByte]) =
      List.count newlineByte m + 1 := by
  constructor
  · show Except.ok (out ++ m ++ [newlineByte]) = _
    rw [List.append_assoc]
  · simp

/-- C3: the factory never returns an absent (null) result: calling it `n`
times in sequence succeeds and yields `n` non-null logger instances. -/
theorem factory_n_calls_yield_n_valid (n : Nat) (s : AllocState) :
    ∃ ps s', createLoggers n s = .ok (ps, s') ∧ ps.length = n ∧
      ∀ p ∈ ps, Option.isSome p := by
  refine ⟨_, _, createLoggers_eq n s, by simp, ?_⟩
  intro p hp
  obtain ⟨a, _, rfl⟩ := List.mem_map.mp hp
  rfl

/-- C4 counterexample: the claim "logging `[m1, ..., mk]` produces
exactly `k` output lines, each matching the corresponding message" fails
for `k = 1` when the single message is the one-byte message `"\n"`: the
code writes the message bytes verbatim plus a terminator, so stdout holds
two newline-terminated lines, not one, and neither equals the message. -/
theorem logAll_single_newline_msg_two_lines :
    logAll [] [[newlineByte]] = .ok [newlineByte, newlineByte] ∧
    linesOf [newlineByte, newlineByte] = [[], []] ∧
    ([[], []] : List Msg).length ≠ ([[newlineByte]] : List Msg).length :=
  ⟨rfl, by decide, by decide⟩

/-- C4 (amended): for every sequence of messages none of which contains
the line-terminator byte, logging them in order produces exactly `k`
output lines in the same order, each line equal to the corresponding
message's content. -/
theorem logAll_newline_free_produces_matching_lines (ms : List Msg)
    (h : ∀ m ∈ ms, newlineByte ∉ m) :
    ∃ o, logAll [] ms = .ok o ∧ linesOf o = ms ∧
      (linesOf o).length = ms.length := by
  refine ⟨_, logAll_eq ms [], ?_, ?_⟩ <;>
    simp [linesOf, splitOnNl_flatten ms h]

/-- C4 amended witness: logging the newline-free messages "x" and "y"
yields exactly the two lines "x", "y". -/
theorem logAll_newline_free_witness :
    (∀ m ∈ [[120], [121]], newlineByte ∉ m) ∧
    ∃ o, logAll [] [[120], [121]] = .ok o ∧
      linesOf o = [[120], [121]] ∧
      (linesOf o).length = ([[120], [121]] : List Msg).length :=
  ⟨by decide,
   logAll_newline_free_produces_matching_lines [[120], [121]] (by decide)⟩

/-- C5: every factory call returns a distinct instance: the `n` pointers
obtained from `n` sequential calls are pairwise different (no two name
the same heap object; each `ConsoleLogger` owns no shared mutable
state, its address being its entire identity). -/
theorem factory_returns_distinct_instances (n : Nat) (s : AllocState) :
    ∃ ps s', createLoggers n s = .ok (ps, s') ∧
      ps.Pairwise (fun a b => a ≠ b) := by
  refine ⟨_, _, createLoggers_eq n s, ?_⟩
  refine List.Nodup.map ?_ (List.nodup_range' s.next n)
  intro a b hab
  simpa using hab

/-- C6: the exit status is the success indicator on every run: for every
allocator state, `main` returns `EXIT_SUCCESS`; no execution path signals
failure. -/
theorem main_always_exits_success (s : AllocState) :
    ∃ out s', mainProgram s = .ok (EXIT_SUCCESS, out, s') :=
  ⟨mainOutput, ⟨s.next + 1⟩, rfl⟩

/-- C7: the declared construction-failure error of the factory is never
raised by the console implementation: no call returns the error branch;
every call completes normally with a non-null instance. -/
theorem factory_error_branch_unreachable (s : AllocState) :
    (∀ e, createDefaultLogger s ≠ .error e) ∧
    ∃ p s', createDefaultLogger s = .ok (some p, s') :=
  ⟨fun _ h => Except.noConfusion h, ⟨⟨s.next⟩, ⟨s.next + 1⟩, rfl⟩⟩

/-- C8: `ILogger` deletes copy and move, so the client operation language
has no duplication or relocation of instances; consequently, after any
sequence of operations from the initial state, every live instance's
address was allocated by a factory call (it lies below the allocator's
high-water mark) and no two live handles name the same instance. -/
theorem no_copy_every_instance_from_factory (ops : List Op) :
    (∀ a ∈ (runOps initState ops).live,
        a < (runOps initState ops).alloc.next) ∧
    (runOps initState ops).live.Nodup :=
  sysInv_runOps ops initState ⟨by simp [initState], by simp [initState]⟩

/-- C9: the program is deterministic: it reads no input at all, so the
observable behaviour (exit status and standard-output content) of any
two runs is identical. -/
theorem main_deterministic (s t : AllocState) :
    observableOf (mainProgram s) = observableOf (mainProgram t) := rfl

/-- C10: the console logger applies no validation, escaping, filtering
or transformation: for every byte sequence `m`, valid UTF-8 or not, the
bytes written before the appended newline are exactly `m`, verbatim. -/
theorem log_writes_bytes_verbatim (out m : List Byte) :
    ConsoleLogger.log out m = .ok (out ++ (m ++ [newlineByte])) ∧
    (out ++ (m ++ [newlineByte])).drop out.length = m ++ [newlineByte] ∧
    (m ++ [newlineByte]).take m.length = m := by
  refine ⟨?_, List.drop_left out (m ++ [newlineByte]), List.take_left m [newlineByte]⟩
  show Except.ok (out ++ m ++ [newlineByte]) = _
  rw [List.append_assoc]

end CppAppTemplate
